import Mathlib

/-!
Verification of the resilience layer of `inflow-ai`.

The definitions below are a shallow embedding of
`src/services/common/circuit_breaker.py` (the `CircuitBreaker` state
machine, the module-level `CIRCUIT_BREAKERS` dict and `get_circuit`) and
of the aggregation endpoint `analyze_idea` in
`src/services/orchestrator/main.py`.

Modelling conventions:
* `time.time()` results are rationals (`ℚ`); every method of the Python
  class that reads the clock takes the current time `now` as an extra
  argument.
* Mutation of `self` becomes explicit state passing: a Python method
  that mutates the breaker returns the updated `CircuitBreaker` value.
* The Python `state` property both transitions (OPEN → HALF_OPEN when the
  recovery timeout elapsed) and reports; it is modelled as a function
  returning the reported `CircuitState` together with the updated breaker.
* Exceptions become `Except` / explicit error constructors.
-/

/-- States of the breaker, from `class CircuitState(Enum)`. -/
inductive CircuitState where
  | CLOSED
  | OPEN
  | HALF_OPEN
  deriving DecidableEq, Repr

/-- The fields of `CircuitBreaker.__init__`: configuration
(`failure_threshold`, `recovery_timeout`, `half_open_max_calls`) and
mutable state (`_state`, `_failure_count`, `_last_failure_time`,
`_half_open_calls`), with the Python default argument values. -/
structure CircuitBreaker where
  name : String
  failure_threshold : Nat := 5
  recovery_timeout : ℚ := 30
  half_open_max_calls : Nat := 3
  _state : CircuitState := CircuitState.CLOSED
  _failure_count : Nat := 0
  _last_failure_time : Option ℚ := none
  _half_open_calls : Nat := 0
  deriving DecidableEq, Repr

namespace CircuitBreaker

/-- `CircuitBreaker._should_attempt_reset`: true when a last failure time
is recorded and `now - last_failure_time >= recovery_timeout`. -/
def _should_attempt_reset (b : CircuitBreaker) (now : ℚ) : Bool :=
  match b._last_failure_time with
  | none => false
  | some t => decide (b.recovery_timeout ≤ now - t)

/-- The `state` property: if `_state` is OPEN and `_should_attempt_reset()`
holds, transition to HALF_OPEN and reset `_half_open_calls` to 0; then
return the (possibly updated) `_state` together with the updated breaker. -/
def state (b : CircuitBreaker) (now : ℚ) : CircuitState × CircuitBreaker :=
  if b._state = CircuitState.OPEN then
    if b._should_attempt_reset now then
      (CircuitState.HALF_OPEN,
        { b with _state := CircuitState.HALF_OPEN, _half_open_calls := 0 })
    else (b._state, b)
  else (b._state, b)

/-- `CircuitBreaker.record_success`: in HALF_OPEN, increment
`_half_open_calls` and close (resetting `_failure_count`) once it reaches
`half_open_max_calls`; in CLOSED, reset `_failure_count`; otherwise do
nothing. -/
def record_success (b : CircuitBreaker) : CircuitBreaker :=
  if b._state = CircuitState.HALF_OPEN then
    let b1 := { b with _half_open_calls := b._half_open_calls + 1 }
    if b1.half_open_max_calls ≤ b1._half_open_calls then
      { b1 with _state := CircuitState.CLOSED, _failure_count := 0 }
    else b1
  else if b._state = CircuitState.CLOSED then
    { b with _failure_count := 0 }
  else b

/-- `CircuitBreaker.record_failure`: increment `_failure_count`, set
`_last_failure_time` to the current time, then open the circuit if the
state was HALF_OPEN or the failure count reached `failure_threshold`. -/
def record_failure (b : CircuitBreaker) (now : ℚ) : CircuitBreaker :=
  let b1 := { b with
    _failure_count := b._failure_count + 1,
    _last_failure_time := some now }
  if b1._state = CircuitState.HALF_OPEN then
    { b1 with _state := CircuitState.OPEN }
  else if b1.failure_threshold ≤ b1._failure_count then
    { b1 with _state := CircuitState.OPEN }
  else b1

/-- `CircuitBreaker.can_execute`: `self.state != CircuitState.OPEN`,
with the `state` property's side effect carried along. -/
def can_execute (b : CircuitBreaker) (now : ℚ) : Bool × CircuitBreaker :=
  let sb := b.state now
  (decide (sb.1 ≠ CircuitState.OPEN), sb.2)

end CircuitBreaker

example :
    ({ name := "x" } : CircuitBreaker)._state = CircuitState.CLOSED := rfl

example :
    ((({ name := "x", failure_threshold := 2 } : CircuitBreaker).record_failure
      0).record_failure 1)._state = CircuitState.OPEN := by decide

/-!
The breaker registry: the module-level dict `CIRCUIT_BREAKERS` and
`get_circuit`.  The dict holds mutable `CircuitBreaker` objects, so object
identity matters: we model the dict as a heap mapping names to breaker
states, and a value returned by `get_circuit` as a reference that is
either an alias of a stored dict entry (`BreakerRef.stored`) or a freshly
constructed, unshared object (`BreakerRef.fresh`).
-/

/-- The process-wide state of the `CIRCUIT_BREAKERS` dict. -/
def Heap : Type := String → Option CircuitBreaker

/-- A `CircuitBreaker` reference handed out by `get_circuit`: an alias of
the dict entry for `name`, or a freshly constructed object. -/
inductive BreakerRef where
  | stored (name : String)
  | fresh (b : CircuitBreaker)
  deriving DecidableEq, Repr

/-- The initial contents of the module-level `CIRCUIT_BREAKERS` dict:
four preconfigured breakers; every other name is absent. -/
def CIRCUIT_BREAKERS : Heap := fun name =>
  if name = "feature_service" then
    some { name := "feature_service", failure_threshold := 5, recovery_timeout := 30 }
  else if name = "inference_service" then
    some { name := "inference_service", failure_threshold := 3, recovery_timeout := 60 }
  else if name = "decision_engine" then
    some { name := "decision_engine", failure_threshold := 5, recovery_timeout := 30 }
  else if name = "llm_service" then
    some { name := "llm_service", failure_threshold := 2, recovery_timeout := 120 }
  else none

/-- `get_circuit(name)`, i.e. `CIRCUIT_BREAKERS.get(name, CircuitBreaker(name=name))`:
if the dict holds an entry for `name` the stored object is returned;
otherwise a fresh `CircuitBreaker(name=name)` (all other arguments at
their defaults) is constructed and returned.  The dict is not modified
in either case. -/
def get_circuit (h : Heap) (name : String) : BreakerRef :=
  match h name with
  | some _ => BreakerRef.stored name
  | none => BreakerRef.fresh { name := name }

/-- Dereference a breaker reference in a given heap. -/
def readRef (h : Heap) (r : BreakerRef) : CircuitBreaker :=
  match r with
  | BreakerRef.stored n => (h n).getD { name := n }
  | BreakerRef.fresh b => b

/-- Overwrite the breaker object a reference points to: a stored
reference updates the dict entry (visible to every alias of it), a fresh
reference updates only the unshared object. -/
def writeRef (h : Heap) (r : BreakerRef) (b : CircuitBreaker) : Heap × BreakerRef :=
  match r with
  | BreakerRef.stored n => (fun m => if m = n then some b else h m, r)
  | BreakerRef.fresh _ => (h, BreakerRef.fresh b)

/-- Call `record_failure` on the object behind a reference. -/
def recordFailureRef (h : Heap) (r : BreakerRef) (now : ℚ) : Heap × BreakerRef :=
  writeRef h r ((readRef h r).record_failure now)

/-!
The decorator `CircuitBreaker.__call__`: the wrapped function first asks
`can_execute()`; if that is false it raises
`CircuitOpenError(f"Circuit {name} is OPEN")` without invoking the
operation; otherwise it invokes the operation, records the outcome on the
breaker, and returns the result or re-raises the original exception.
The operation is modelled by the outcome it would produce when invoked
(`Except ε α`); the `Nat` component of the result counts how many times
the operation was actually invoked.  The clock value used by
`record_failure` is taken to be the same instant `now` that `can_execute`
observed.
-/

/-- Outcome of calling a breaker-wrapped operation: the operation's
result, the operation's own exception re-raised, or `CircuitOpenError`
with its message. -/
inductive CallResult (ε α : Type) where
  | ok (v : α)
  | raised (e : ε)
  | circuitOpen (msg : String)
  deriving DecidableEq, Repr

/-- The body of the `wrapper` closure produced by `CircuitBreaker.__call__`.
Returns the call outcome, the breaker after the call, and the number of
times the wrapped operation was invoked. -/
def CircuitBreaker.call {ε α : Type} (b : CircuitBreaker) (now : ℚ)
    (op : Except ε α) : CallResult ε α × CircuitBreaker × Nat :=
  let ce := b.can_execute now
  if ce.1 = false then
    (CallResult.circuitOpen ("Circuit " ++ b.name ++ " is OPEN"), ce.2, 0)
  else
    match op with
    | Except.ok v => (CallResult.ok v, ce.2.record_success, 1)
    | Except.error e => (CallResult.raised e, ce.2.record_failure now, 1)

/-!
The aggregation endpoint `analyze_idea` of
`src/services/orchestrator/main.py` (lines 53-90).  It awaits three
dependency operations in order: `viability_client.check` (critical: a
failure raises `HTTPException(500, "Critical dependency 'Viability'
failed.")` at once), `risk_client.scan` (non-critical: a failure is
replaced by the string `"UNKNOWN"`), and `timing_client.get_best_time`
(untagged: a failure is replaced by `None`).

Each operation is modelled by the outcome it produces when invoked
(`Except String _`, the `String` being the exception message).  The
function body of `analyze_idea` contains no reference to the
`circuit_breaker` module, `CIRCUIT_BREAKERS` or `get_circuit`, so the
process's breaker dict is threaded through unchanged in every branch.
The three `Nat`s returned count how many times each of the three
operations was invoked (an operation guarded by an earlier fatal error is
never awaited).
-/

/-- A response slot as it appears in the JSON of `AnalysisResponse`:
a real value, the string `"UNKNOWN"`, or `None`/`null`. -/
inductive Slot (α : Type) where
  | value (v : α)
  | UNKNOWN
  | null
  deriving DecidableEq, Repr

/-- The `AnalysisResponse` pydantic model: `viability` always holds a
real result, `risk` holds a result or `"UNKNOWN"`, `timing` holds a
result or `None`. -/
structure AnalysisResponse (V R T : Type) where
  viability : V
  risk : Slot R
  timing : Slot T
  deriving DecidableEq, Repr

/-- What the endpoint produces: a fatal `HTTPException` (status code and
detail message) or a full `AnalysisResponse`. -/
inductive AnalyzeResult (V R T : Type) where
  | httpError (status : Nat) (detail : String)
  | response (r : AnalysisResponse V R T)
  deriving DecidableEq, Repr

/-- `analyze_idea`: await viability (fatal 500 on failure), then risk
(`"UNKNOWN"` on failure), then timing (`None` on failure), and assemble
the response.  Returns the result, the breaker dict after the request
(the body never touches it), and the per-operation invocation counts
`(viability, risk, timing)`. -/
def analyze_idea {V R T : Type} (h : Heap) (vOp : Except String V)
    (rOp : Except String R) (tOp : Except String T) :
    AnalyzeResult V R T × Heap × (Nat × Nat × Nat) :=
  match vOp with
  | Except.error _ =>
      (AnalyzeResult.httpError 500 "Critical dependency 'Viability' failed.",
        h, (1, 0, 0))
  | Except.ok v =>
      let risk : Slot R :=
        match rOp with
        | Except.ok r => Slot.value r
        | Except.error _ => Slot.UNKNOWN
      let timing : Slot T :=
        match tOp with
        | Except.ok t => Slot.value t
        | Except.error _ => Slot.null
      (AnalyzeResult.response ⟨v, risk, timing⟩, h, (1, 1, 1))

/-!  Helper lemmas about the breaker state machine.  -/

/-- `record_failure` always increments `_failure_count` by one. -/
theorem record_failure_count (b : CircuitBreaker) (t : ℚ) :
    (b.record_failure t)._failure_count = b._failure_count + 1 := by
  unfold CircuitBreaker.record_failure
  dsimp only
  repeat' split
  all_goals rfl

/-- `record_failure` always sets `_last_failure_time` to the current time. -/
theorem record_failure_lft (b : CircuitBreaker) (t : ℚ) :
    (b.record_failure t)._last_failure_time = some t := by
  unfold CircuitBreaker.record_failure
  dsimp only
  repeat' split
  all_goals rfl

/-- If `can_execute()` reports false, the `state` query returned OPEN and
performed no transition: the breaker is unchanged. -/
theorem can_execute_false_state (b : CircuitBreaker) (now : ℚ)
    (h : (b.can_execute now).1 = false) :
    b.state now = (CircuitState.OPEN, b) := by
  unfold CircuitBreaker.can_execute at h
  have h1 : (b.state now).1 = CircuitState.OPEN := by
    by_contra hne
    simp [hne] at h
  unfold CircuitBreaker.state at h1 ⊢
  by_cases ho : b._state = CircuitState.OPEN
  · by_cases hr : b._should_attempt_reset now
    · simp [ho, hr] at h1
    · simp [ho, hr]
  · simp [ho] at h1

/-- C9: querying the breaker state twice at the same clock time with no
recorded outcomes in between is idempotent: the second `state` query
returns the same value as the first and leaves the breaker (all fields)
exactly as the first query left it. -/
theorem state_query_idempotent (b : CircuitBreaker) (now : ℚ) :
    ((b.state now).2).state now = b.state now := by
  unfold CircuitBreaker.state
  by_cases ho : b._state = CircuitState.OPEN
  · by_cases hr : b._should_attempt_reset now
    · simp [ho, hr]
    · simp [ho, hr]
  · simp [ho]

/-- C10: `record_success` on a breaker whose state is OPEN is a complete
no-op: the breaker value (state, `_failure_count`, `_half_open_calls`,
`_last_failure_time`, configuration) is returned unchanged. -/
theorem record_success_open_noop (b : CircuitBreaker)
    (h : b._state = CircuitState.OPEN) : b.record_success = b := by
  unfold CircuitBreaker.record_success
  rw [h]
  simp

/-- Witness for `record_success_open_noop` at a concrete OPEN breaker. -/
theorem record_success_open_noop_witness :
    ({ name := "d", _state := CircuitState.OPEN } : CircuitBreaker)._state
        = CircuitState.OPEN ∧
    ({ name := "d", _state := CircuitState.OPEN } : CircuitBreaker).record_success
        = { name := "d", _state := CircuitState.OPEN } :=
  ⟨rfl, record_success_open_noop { name := "d", _state := CircuitState.OPEN } rfl⟩

/-- A sequence of consecutive `record_failure()` calls, one per timestamp
in `ts`, applied left to right. -/
def iterFailures (b : CircuitBreaker) (ts : List ℚ) : CircuitBreaker :=
  ts.foldl (fun acc t => acc.record_failure t) b

theorem iterFailures_cons (b : CircuitBreaker) (t : ℚ) (ts : List ℚ) :
    iterFailures b (t :: ts) = iterFailures (b.record_failure t) ts := rfl

/-- One `record_failure` on a CLOSED breaker strictly below its threshold
only increments the count and stamps the failure time. -/
theorem record_failure_closed_step (b : CircuitBreaker) (t : ℚ)
    (hs : b._state = CircuitState.CLOSED)
    (hlt : b._failure_count + 1 < b.failure_threshold) :
    b.record_failure t =
      { b with _failure_count := b._failure_count + 1,
               _last_failure_time := some t } := by
  unfold CircuitBreaker.record_failure
  dsimp only
  rw [if_neg (by simp [hs]), if_neg (by omega)]

/-- One `record_failure` on a CLOSED breaker that reaches its threshold
opens the circuit. -/
theorem record_failure_closed_opens (b : CircuitBreaker) (t : ℚ)
    (hs : b._state = CircuitState.CLOSED)
    (hge : b.failure_threshold ≤ b._failure_count + 1) :
    (b.record_failure t)._state = CircuitState.OPEN := by
  unfold CircuitBreaker.record_failure
  dsimp only
  rw [if_neg (by simp [hs]), if_pos (by omega)]

/-- While the running failure count stays below the threshold, a CLOSED
breaker stays CLOSED and the count adds up. -/
theorem iterFailures_stays_closed (ts : List ℚ) : ∀ b : CircuitBreaker,
    b._state = CircuitState.CLOSED →
    b._failure_count + ts.length < b.failure_threshold →
    (iterFailures b ts)._state = CircuitState.CLOSED ∧
    (iterFailures b ts)._failure_count = b._failure_count + ts.length ∧
    (iterFailures b ts).failure_threshold = b.failure_threshold := by
  induction ts with
  | nil =>
    intro b hs _
    exact ⟨hs, rfl, rfl⟩
  | cons t ts ih =>
    intro b hs hc
    simp only [List.length_cons] at hc ⊢
    have hlt : b._failure_count + 1 < b.failure_threshold := by omega
    rw [iterFailures_cons, record_failure_closed_step b t hs hlt]
    obtain ⟨h1, h2, h3⟩ := ih
      { b with _failure_count := b._failure_count + 1,
               _last_failure_time := some t }
      hs (show b._failure_count + 1 + ts.length < b.failure_threshold by omega)
    refine ⟨h1, ?_, h3⟩
    rw [h2]
    show b._failure_count + 1 + ts.length = b._failure_count + (ts.length + 1)
    omega

/-- Exactly at the threshold the circuit opens: if the failure count plus
the number of remaining failures equals the threshold (and at least one
failure remains), the breaker ends OPEN. -/
theorem iterFailures_opens (ts : List ℚ) : ∀ b : CircuitBreaker,
    b._state = CircuitState.CLOSED →
    b._failure_count + ts.length = b.failure_threshold →
    1 ≤ ts.length →
    (iterFailures b ts)._state = CircuitState.OPEN := by
  induction ts with
  | nil =>
    intro b _ _ h
    simp at h
  | cons t ts ih =>
    intro b hs hc _
    by_cases hnil : ts = []
    · subst hnil
      simp only [List.length_cons, List.length_nil] at hc
      rw [iterFailures_cons]
      show (b.record_failure t)._state = CircuitState.OPEN
      exact record_failure_closed_opens b t hs (by omega)
    · have hlen : 1 ≤ ts.length := by
        cases ts with
        | nil => exact absurd rfl hnil
        | cons a l => simp
      have hlt : b._failure_count + 1 < b.failure_threshold := by
        simp only [List.length_cons] at hc
        omega
      rw [iterFailures_cons, record_failure_closed_step b t hs hlt]
      exact ih _ hs (by simp only [List.length_cons] at hc ⊢; omega) hlen

/-- `record_success` on a CLOSED breaker only resets the failure count. -/
theorem record_success_closed (b : CircuitBreaker)
    (hs : b._state = CircuitState.CLOSED) :
    b.record_success = { b with _failure_count := 0 } := by
  unfold CircuitBreaker.record_success
  rw [if_neg (by simp [hs]), if_pos hs]

/-- C5: a breaker with `failure_threshold = T` that is CLOSED with zero
failure count: any `T` consecutive `record_failure()` calls leave it OPEN;
any `T - 1` consecutive `record_failure()` calls leave it CLOSED, and one
`record_success()` then leaves it CLOSED with `_failure_count` reset
to 0. -/
theorem failure_threshold_exact (b : CircuitBreaker)
    (hs : b._state = CircuitState.CLOSED)
    (hc : b._failure_count = 0)
    (hT : 1 ≤ b.failure_threshold) :
    (∀ ts : List ℚ, ts.length = b.failure_threshold →
      (iterFailures b ts)._state = CircuitState.OPEN) ∧
    (∀ ts : List ℚ, ts.length + 1 = b.failure_threshold →
      (iterFailures b ts)._state = CircuitState.CLOSED ∧
      ((iterFailures b ts).record_success)._state = CircuitState.CLOSED ∧
      ((iterFailures b ts).record_success)._failure_count = 0) := by
  constructor
  · intro ts hlen
    exact iterFailures_opens ts b hs (by omega) (by omega)
  · intro ts hlen
    obtain ⟨h1, _, _⟩ := iterFailures_stays_closed ts b hs (by omega)
    refine ⟨h1, ?_, ?_⟩
    · rw [record_success_closed _ h1]
      exact h1
    · rw [record_success_closed _ h1]
  -- the updated record has `_failure_count := 0` by construction

/-- Witness for `failure_threshold_exact` with threshold 2: two failures
open the breaker; one failure then one success leaves it CLOSED at
count 0. -/
theorem failure_threshold_exact_witness :
    (iterFailures { name := "w5", failure_threshold := 2 } [0, 1])._state
        = CircuitState.OPEN ∧
    (iterFailures { name := "w5", failure_threshold := 2 } [0])._state
        = CircuitState.CLOSED ∧
    ((iterFailures { name := "w5", failure_threshold := 2 }
        [0]).record_success)._failure_count = 0 := by
  have h := failure_threshold_exact
    { name := "w5", failure_threshold := 2 } rfl rfl (by decide)
  exact ⟨h.1 [0, 1] rfl, (h.2 [0] rfl).1, (h.2 [0] rfl).2.2⟩

/-- A sequence of `k` consecutive `record_success()` calls. -/
def iterSuccess (b : CircuitBreaker) (k : Nat) : CircuitBreaker :=
  CircuitBreaker.record_success^[k] b

/-- `record_success` on a HALF_OPEN breaker strictly below the probe
budget only increments `_half_open_calls`. -/
theorem record_success_half_open_step (b : CircuitBreaker)
    (hs : b._state = CircuitState.HALF_OPEN)
    (hlt : b._half_open_calls + 1 < b.half_open_max_calls) :
    b.record_success = { b with _half_open_calls := b._half_open_calls + 1 } := by
  unfold CircuitBreaker.record_success
  dsimp only
  rw [if_pos hs, if_neg (by omega)]

/-- `record_success` on a HALF_OPEN breaker that completes the probe
budget closes the circuit and resets the failure count. -/
theorem record_success_half_open_closes (b : CircuitBreaker)
    (hs : b._state = CircuitState.HALF_OPEN)
    (hge : b.half_open_max_calls ≤ b._half_open_calls + 1) :
    b.record_success =
      { b with _half_open_calls := b._half_open_calls + 1,
               _state := CircuitState.CLOSED, _failure_count := 0 } := by
  unfold CircuitBreaker.record_success
  dsimp only
  rw [if_pos hs, if_pos (by omega)]

/-- While the success count stays below `half_open_max_calls`, a
HALF_OPEN breaker stays HALF_OPEN and the successes add up. -/
theorem iterSuccess_stays_half_open (k : Nat) : ∀ b : CircuitBreaker,
    b._state = CircuitState.HALF_OPEN →
    b._half_open_calls + k < b.half_open_max_calls →
    (iterSuccess b k)._state = CircuitState.HALF_OPEN ∧
    (iterSuccess b k)._half_open_calls = b._half_open_calls + k ∧
    (iterSuccess b k).half_open_max_calls = b.half_open_max_calls := by
  induction k with
  | zero =>
    intro b hs _
    exact ⟨hs, rfl, rfl⟩
  | succ k ih =>
    intro b hs hc
    have hstep : b.record_success
        = { b with _half_open_calls := b._half_open_calls + 1 } :=
      record_success_half_open_step b hs (by omega)
    have hiter : iterSuccess b (k + 1)
        = iterSuccess b.record_success k := by
      unfold iterSuccess
      exact Function.iterate_succ_apply CircuitBreaker.record_success k b
    rw [hiter, hstep]
    obtain ⟨h1, h2, h3⟩ := ih { b with _half_open_calls := b._half_open_calls + 1 }
      hs (show b._half_open_calls + 1 + k < b.half_open_max_calls by omega)
    refine ⟨h1, ?_, h3⟩
    rw [h2]
    show b._half_open_calls + 1 + k = b._half_open_calls + (k + 1)
    omega

/-- C8: a breaker that is HALF_OPEN at the start of its probe window
(`_half_open_calls = 0`, `half_open_max_calls = M ≥ 1`):
`M` consecutive `record_success()` calls leave it CLOSED with
`_failure_count = 0`; any fewer leave it HALF_OPEN; and a single
`record_failure()` while HALF_OPEN leaves it OPEN with
`_last_failure_time` set to the failure's time. -/
theorem half_open_probe (b : CircuitBreaker)
    (hs : b._state = CircuitState.HALF_OPEN)
    (hz : b._half_open_calls = 0)
    (hM : 1 ≤ b.half_open_max_calls) :
    ((iterSuccess b b.half_open_max_calls)._state = CircuitState.CLOSED ∧
     (iterSuccess b b.half_open_max_calls)._failure_count = 0) ∧
    (∀ k, k < b.half_open_max_calls →
      (iterSuccess b k)._state = CircuitState.HALF_OPEN) ∧
    (∀ now : ℚ, (b.record_failure now)._state = CircuitState.OPEN ∧
      (b.record_failure now)._last_failure_time = some now) := by
  refine ⟨?_, ?_, ?_⟩
  · obtain ⟨m, hm⟩ : ∃ m, b.half_open_max_calls = m + 1 :=
      ⟨b.half_open_max_calls - 1, by omega⟩
    obtain ⟨h1, h2, h3⟩ := iterSuccess_stays_half_open m b hs (by omega)
    have hiter : iterSuccess b (m + 1)
        = (iterSuccess b m).record_success := by
      unfold iterSuccess
      exact Function.iterate_succ_apply' CircuitBreaker.record_success m b
    have hclose := record_success_half_open_closes (iterSuccess b m) h1 (by omega)
    rw [hm, hiter, hclose]
    exact ⟨rfl, rfl⟩
  · intro k hk
    exact (iterSuccess_stays_half_open k b hs (by omega)).1
  · intro now
    constructor
    · unfold CircuitBreaker.record_failure
      dsimp only
      rw [if_pos (by simp [hs])]
    · exact record_failure_lft b now

/-- Witness for `half_open_probe` at the default probe budget 3. -/
theorem half_open_probe_witness :
    (iterSuccess { name := "w8", _state := CircuitState.HALF_OPEN } 3)._state
        = CircuitState.CLOSED ∧
    (iterSuccess { name := "w8", _state := CircuitState.HALF_OPEN } 1)._state
        = CircuitState.HALF_OPEN ∧
    (({ name := "w8", _state := CircuitState.HALF_OPEN }
        : CircuitBreaker).record_failure 5)._state = CircuitState.OPEN := by
  have h := half_open_probe
    { name := "w8", _state := CircuitState.HALF_OPEN } rfl rfl (by decide)
  exact ⟨h.1.1, h.2.1 1 (by decide), (h.2.2 5).1⟩

/-- C6: whenever `can_execute()` is false, the breaker-wrapped call fails
at once with `CircuitOpenError` whose message names the breaker's
dependency, the wrapped operation is invoked zero times, and the breaker
is unchanged. -/
theorem call_fast_fail {ε α : Type} (b : CircuitBreaker) (now : ℚ)
    (op : Except ε α) (h : (b.can_execute now).1 = false) :
    b.call now op =
      (CallResult.circuitOpen ("Circuit " ++ b.name ++ " is OPEN"), b, 0) := by
  have hs := can_execute_false_state b now h
  unfold CircuitBreaker.call CircuitBreaker.can_execute
  rw [hs]
  simp

/-- A concrete OPEN breaker (the `llm_service` configuration) inside its
recovery window, used as the fast-fail witness. -/
def openBreakerW : CircuitBreaker :=
  { name := "llm_service", failure_threshold := 2, recovery_timeout := 120,
    _state := CircuitState.OPEN, _failure_count := 2, _last_failure_time := some 0 }

/-- Witness for `call_fast_fail`: at time 1 the breaker is still OPEN and
the wrapped operation (which would succeed) is never invoked. -/
theorem call_fast_fail_witness :
    (openBreakerW.can_execute 1).1 = false ∧
    openBreakerW.call 1 (Except.ok 5 : Except String Nat) =
      (CallResult.circuitOpen ("Circuit " ++ openBreakerW.name ++ " is OPEN"),
        openBreakerW, 0) := by
  have h : (openBreakerW.can_execute 1).1 = false := by
    simp [openBreakerW, CircuitBreaker.can_execute, CircuitBreaker.state,
      CircuitBreaker._should_attempt_reset]
  exact ⟨h, call_fast_fail openBreakerW 1 (Except.ok 5) h⟩

/-- C7: a breaker that is OPEN with an elapsed recovery timeout
(`recovery_timeout ≤ now - last_failure_time`) transitions to HALF_OPEN
with `_half_open_calls` reset to 0 on the very next state query, the
query reports HALF_OPEN, and `can_execute()` returns true. -/
theorem open_timeout_query_half_open (b : CircuitBreaker) (now t : ℚ)
    (hs : b._state = CircuitState.OPEN)
    (hl : b._last_failure_time = some t)
    (ht : b.recovery_timeout ≤ now - t) :
    b.state now = (CircuitState.HALF_OPEN,
      { b with _state := CircuitState.HALF_OPEN, _half_open_calls := 0 }) ∧
    (b.can_execute now).1 = true := by
  have hr : b._should_attempt_reset now = true := by
    unfold CircuitBreaker._should_attempt_reset
    rw [hl]
    simpa using ht
  have h1 : b.state now = (CircuitState.HALF_OPEN,
      { b with _state := CircuitState.HALF_OPEN, _half_open_calls := 0 }) := by
    unfold CircuitBreaker.state
    simp [hs, hr]
  exact ⟨h1, by simp [CircuitBreaker.can_execute, h1]⟩

/-- Witness for `open_timeout_query_half_open`: default recovery timeout
30, failure recorded at time 0, queried at time 31. -/
theorem open_timeout_query_half_open_witness :
    ({ name := "w7", _state := CircuitState.OPEN,
        _last_failure_time := some 0 } : CircuitBreaker).state 31 =
      (CircuitState.HALF_OPEN,
        { name := "w7", _state := CircuitState.HALF_OPEN,
          _last_failure_time := some 0 }) ∧
    (({ name := "w7", _state := CircuitState.OPEN,
        _last_failure_time := some 0 } : CircuitBreaker).can_execute 31).1 = true :=
  open_timeout_query_half_open
    { name := "w7", _state := CircuitState.OPEN, _last_failure_time := some 0 }
    31 0 rfl rfl (by norm_num)

/-- C4: if the Critical viability dependency's call fails, `analyze_idea`
terminates with the fatal 500 error naming the critical dependency,
whatever the other two operations would have produced; the risk and
timing operations are never invoked (counts 0), so no partial response
and no other dependency's result is surfaced. -/
theorem critical_failure_fatal {V R T : Type} (h : Heap) (e : String)
    (rOp : Except String R) (tOp : Except String T) :
    analyze_idea h (Except.error e : Except String V) rOp tOp =
      (AnalyzeResult.httpError 500 "Critical dependency 'Viability' failed.",
        h, (1, 0, 0)) := rfl

/-- C3 (amended): when viability succeeds, a failing Risk (NonCritical)
operation yields the sentinel `"UNKNOWN"` in the risk slot while a
failing untagged Timing operation yields `None` (not the sentinel); in
both cases the other dependencies' real values are kept and no fatal
error is produced. -/
theorem noncritical_failure_slots {V R T : Type} (h : Heap) (v : V)
    (e f : String) (r : R) (t : T) :
    analyze_idea h (Except.ok v) (Except.error e : Except String R)
        (Except.ok t) =
      (AnalyzeResult.response ⟨v, Slot.UNKNOWN, Slot.value t⟩, h, (1, 1, 1)) ∧
    analyze_idea h (Except.ok v) (Except.ok r)
        (Except.error f : Except String T) =
      (AnalyzeResult.response ⟨v, Slot.value r, Slot.null⟩, h, (1, 1, 1)) ∧
    analyze_idea h (Except.ok v) (Except.error e : Except String R)
        (Except.error f : Except String T) =
      (AnalyzeResult.response ⟨v, Slot.UNKNOWN, Slot.null⟩, h, (1, 1, 1)) :=
  ⟨rfl, rfl, rfl⟩

/-- C3 (counterexample): the untagged Timing call is not given the
sentinel on failure: with viability and risk succeeding and timing
failing, the timing slot of the response is `None`/`null`, which is not
the `"UNKNOWN"` sentinel. -/
theorem untagged_timing_failure_not_unknown :
    (analyze_idea CIRCUIT_BREAKERS (Except.ok 1 : Except String Nat)
        (Except.ok 2 : Except String Nat)
        (Except.error "Timing check failed" : Except String Nat)).1 =
      AnalyzeResult.response ⟨1, Slot.value 2, Slot.null⟩ ∧
    (Slot.null : Slot Nat) ≠ Slot.UNKNOWN :=
  ⟨rfl, by decide⟩

/-- The registry's breakers with every entry driven OPEN by a failure at
time 0 (still inside every recovery window at time 1). -/
def openAllHeap : Heap := fun n =>
  (CIRCUIT_BREAKERS n).map fun b =>
    { b with _state := CircuitState.OPEN, _last_failure_time := some 0 }

/-- C2 (counterexample): aggregation is not gated by the registry's
breakers.  With every breaker in the `CIRCUIT_BREAKERS` registry OPEN
(`can_execute` false at time 1) and the risk operation failing, the
endpoint still invokes all three operations (counts `(1, 1, 1)`) and
returns with the registry state unchanged — no breaker was consulted
before any call and none was updated with the risk failure afterwards. -/
theorem aggregation_ignores_breakers_cex :
    analyze_idea openAllHeap (Except.ok 1 : Except String Nat)
        (Except.error "Risk Service timeout" : Except String Nat)
        (Except.ok 2 : Except String Nat) =
      (AnalyzeResult.response ⟨1, Slot.UNKNOWN, Slot.value 2⟩,
        openAllHeap, (1, 1, 1)) ∧
    ((openAllHeap "feature_service").map fun b => (b.can_execute 1).1)
        = some false ∧
    ((openAllHeap "inference_service").map fun b => (b.can_execute 1).1)
        = some false ∧
    ((openAllHeap "decision_engine").map fun b => (b.can_execute 1).1)
        = some false ∧
    ((openAllHeap "llm_service").map fun b => (b.can_execute 1).1)
        = some false := by
  refine ⟨rfl, ?_, ?_, ?_, ?_⟩ <;>
    simp [openAllHeap, CIRCUIT_BREAKERS, CircuitBreaker.can_execute,
      CircuitBreaker.state, CircuitBreaker._should_attempt_reset]

/-- C2 (amended): `analyze_idea` performs aggregation without consulting
or updating any circuit breaker: for every starting registry state the
registry after the request is the very same state, and the operations are
invoked purely according to the viability outcome (viability always once;
risk and timing once each unless the critical viability call already
failed), regardless of any breaker's state. -/
theorem aggregation_ignores_breakers {V R T : Type} (h : Heap)
    (vOp : Except String V) (rOp : Except String R) (tOp : Except String T) :
    (analyze_idea h vOp rOp tOp).2.1 = h ∧
    (analyze_idea h vOp rOp tOp).2.2 =
      (match vOp with
       | Except.ok _ => (1, 1, 1)
       | Except.error _ => (1, 0, 0)) := by
  cases vOp <;> exact ⟨rfl, rfl⟩

/-- The two-lookup experiment behind the registry reuse contract: look up
`name` with `get_circuit`, record one failure (at time `t`) through the
returned reference, then look up `name` again.  Returns the reference the
failure was recorded through, the dict state after the failure, and the
reference returned by the second lookup. -/
def registryReuseExperiment (name : String) (t : ℚ) :
    BreakerRef × Heap × BreakerRef :=
  let r1 := get_circuit CIRCUIT_BREAKERS name
  let hr := recordFailureRef CIRCUIT_BREAKERS r1 t
  (hr.2, hr.1, get_circuit hr.1 name)

/-- C1 (counterexample): for a name with no preconfigured policy
(`"profile_service"`), the second `get_circuit` call does not return the
breaker the failure was recorded through: the two references are
different objects, and the breaker obtained from the second call has
`_failure_count = 0` although a failure was recorded through the first
(whose count is 1). -/
theorem get_circuit_unknown_name_not_shared :
    (registryReuseExperiment "profile_service" 0).2.2
        ≠ (registryReuseExperiment "profile_service" 0).1 ∧
    (readRef (registryReuseExperiment "profile_service" 0).2.1
        (registryReuseExperiment "profile_service" 0).2.2)._failure_count = 0 ∧
    (readRef (registryReuseExperiment "profile_service" 0).2.1
        (registryReuseExperiment "profile_service" 0).1)._failure_count = 1 := by
  refine ⟨?_, rfl, rfl⟩
  intro hcontra
  simp [registryReuseExperiment, get_circuit, recordFailureRef, readRef,
    writeRef, CIRCUIT_BREAKERS, CircuitBreaker.record_failure] at hcontra

/-- C1 (amended): a lookup of one of the four preconfigured names returns
the stored breaker object on every call, so a failure recorded through
the first returned reference is visible through the second; for every
other name each `get_circuit` call constructs a fresh breaker object, so
the second lookup returns a breaker with `_failure_count = 0` even though
the failure was recorded (count 1) through the first reference. -/
theorem get_circuit_sharing (name : String) (t : ℚ) :
    ((CIRCUIT_BREAKERS name).isSome = true →
      (registryReuseExperiment name t).2.2 = BreakerRef.stored name ∧
      (registryReuseExperiment name t).2.2
          = (registryReuseExperiment name t).1 ∧
      (readRef (registryReuseExperiment name t).2.1
          (registryReuseExperiment name t).2.2)._failure_count
        = (readRef CIRCUIT_BREAKERS
            (get_circuit CIRCUIT_BREAKERS name))._failure_count + 1) ∧
    (CIRCUIT_BREAKERS name = none →
      (registryReuseExperiment name t).2.2 = BreakerRef.fresh { name := name } ∧
      (readRef (registryReuseExperiment name t).2.1
          (registryReuseExperiment name t).2.2)._failure_count = 0 ∧
      (readRef (registryReuseExperiment name t).2.1
          (registryReuseExperiment name t).1)._failure_count = 1) := by
  constructor
  · intro hsome
    obtain ⟨b0, hb0⟩ := Option.isSome_iff_exists.mp hsome
    refine ⟨?_, ?_, ?_⟩ <;>
      simp [registryReuseExperiment, get_circuit, recordFailureRef, readRef,
        writeRef, hb0, record_failure_count]
  · intro hnone
    refine ⟨?_, ?_, ?_⟩ <;>
      simp [registryReuseExperiment, get_circuit, recordFailureRef, readRef,
        writeRef, hnone, record_failure_count]

/-- Witness for `get_circuit_sharing` at the preconfigured name
`"llm_service"`: both lookups alias the stored breaker and the recorded
failure is visible through the second lookup. -/
theorem get_circuit_sharing_witness :
    (CIRCUIT_BREAKERS "llm_service").isSome = true ∧
    (registryReuseExperiment "llm_service" 0).2.2
        = (registryReuseExperiment "llm_service" 0).1 ∧
    (readRef (registryReuseExperiment "llm_service" 0).2.1
        (registryReuseExperiment "llm_service" 0).2.2)._failure_count
      = (readRef CIRCUIT_BREAKERS
          (get_circuit CIRCUIT_BREAKERS "llm_service"))._failure_count + 1 := by
  have h := (get_circuit_sharing "llm_service" 0).1 rfl
  exact ⟨rfl, h.2.1, h.2.2⟩
